import Mathlib

/-!
Verification of the core of `src/1d-burgers/ide_disc_burgers.py` (discrete-time
Burgers identification PINN).  Tensors of reals are embedded as Mathlib
matrices over `ℝ`; TensorFlow's elementwise `*`, `tf.square`, `tf.reduce_sum`,
`tf.matmul` and `.T` become elementwise products, `reduce_sum`, matrix
multiplication and `Matrix.transpose`.  The Keras `Sequential` built in
`__init__` is embedded as a list of dense layers over dynamic lists, exactly as
the constructor builds it (every layer of `layers[1:]` gets the `tanh`
activation).  Training state (`q`, `dt`, weights, `lambda_1`, `lambda_2`) is a
record threaded through an explicit training loop mirroring `fit`.
-/

namespace IdeDiscBurgers

open Filter

/-- Elementwise slice-0 residual of `U_0_model` (line `N = l1*U*U_x - l2*U_xx`);
`l2` is the already-exponentiated diffusion coefficient, as in the code where
`l2 = tf.exp(self.lambda_2)`.  TensorFlow `*` on equal-shaped tensors is the
elementwise (Hadamard) product. -/
def N_0 {n q : ℕ} (l1 l2 : ℝ) (U U_x U_xx : Matrix (Fin n) (Fin q) ℝ) :
    Matrix (Fin n) (Fin q) ℝ :=
  Matrix.of fun i j => l1 * U i j * U_x i j - l2 * U_xx i j

/-- Elementwise slice-1 residual of `U_1_model` (line `N = -l1*U*U_x + l2*U_xx`). -/
def N_1 {n q : ℕ} (l1 l2 : ℝ) (U U_x U_xx : Matrix (Fin n) (Fin q) ℝ) :
    Matrix (Fin n) (Fin q) ℝ :=
  Matrix.of fun i j => -l1 * U i j * U_x i j + l2 * U_xx i j

/-- Method `U_0_model` after the derivative engine: from the approximator output `U`
and its spatial derivatives `U_x`, `U_xx` it returns
`U + dt * tf.matmul(N, IRK_alpha.T)` with `N = lambda_1*U*U_x - exp(lambda_2)*U_xx`. -/
noncomputable def U_0_model {n q : ℕ} (lambda_1 lambda_2 dt : ℝ)
    (IRK_alpha : Matrix (Fin q) (Fin q) ℝ)
    (U U_x U_xx : Matrix (Fin n) (Fin q) ℝ) : Matrix (Fin n) (Fin q) ℝ :=
  U + dt • (N_0 lambda_1 (Real.exp lambda_2) U U_x U_xx * IRK_alpha.transpose)

/-- Method `U_1_model` after the derivative engine: returns
`U + dt * tf.matmul(N, (IRK_beta - IRK_alpha).T)` with
`N = -lambda_1*U*U_x + exp(lambda_2)*U_xx`. -/
noncomputable def U_1_model {n q : ℕ} (lambda_1 lambda_2 dt : ℝ)
    (IRK_alpha IRK_beta : Matrix (Fin q) (Fin q) ℝ)
    (U U_x U_xx : Matrix (Fin n) (Fin q) ℝ) : Matrix (Fin n) (Fin q) ℝ :=
  U + dt • (N_1 lambda_1 (Real.exp lambda_2) U U_x U_xx * (IRK_beta - IRK_alpha).transpose)

/-- Elementwise value of the slice-0 prediction (shared unfolding lemma). -/
theorem U_0_model_apply {n q : ℕ} (lambda_1 lambda_2 dt : ℝ)
    (IRK_alpha : Matrix (Fin q) (Fin q) ℝ)
    (U U_x U_xx : Matrix (Fin n) (Fin q) ℝ) (i : Fin n) (j : Fin q) :
    U_0_model lambda_1 lambda_2 dt IRK_alpha U U_x U_xx i j
      = U i j + dt * ∑ k, (lambda_1 * U i k * U_x i k
          - Real.exp lambda_2 * U_xx i k) * IRK_alpha j k := by
  simp [U_0_model, N_0, Matrix.add_apply, Matrix.smul_apply, Matrix.mul_apply,
    Matrix.transpose_apply, smul_eq_mul]

/-- Elementwise value of the slice-1 prediction (shared unfolding lemma). -/
theorem U_1_model_apply {n q : ℕ} (lambda_1 lambda_2 dt : ℝ)
    (IRK_alpha IRK_beta : Matrix (Fin q) (Fin q) ℝ)
    (U U_x U_xx : Matrix (Fin n) (Fin q) ℝ) (i : Fin n) (j : Fin q) :
    U_1_model lambda_1 lambda_2 dt IRK_alpha IRK_beta U U_x U_xx i j
      = U i j + dt * ∑ k, (-lambda_1 * U i k * U_x i k
          + Real.exp lambda_2 * U_xx i k) * (IRK_beta j k - IRK_alpha j k) := by
  simp [U_1_model, N_1, Matrix.add_apply, Matrix.smul_apply, Matrix.mul_apply,
    Matrix.transpose_apply, Matrix.sub_apply, smul_eq_mul]

/-- Claim C1: for every batch (every approximator output `U` with spatial
derivatives `U_x`, `U_xx`) and every value of the trainable parameters, the
slice-0 stage predictor computes the elementwise residual
`N = lambda_1 * U * U_x - exp(lambda_2) * U_xx` and returns exactly
`U + dt * (N @ alpha^T)`: entry `(i, j)` of the result is
`U i j + dt * sum_k N i k * alpha j k`. -/
theorem C1_U_0_model_formula {n q : ℕ} (lambda_1 lambda_2 dt : ℝ)
    (IRK_alpha : Matrix (Fin q) (Fin q) ℝ)
    (U U_x U_xx : Matrix (Fin n) (Fin q) ℝ) (i : Fin n) (j : Fin q) :
    U_0_model lambda_1 lambda_2 dt IRK_alpha U U_x U_xx
      = U + dt • (N_0 lambda_1 (Real.exp lambda_2) U U_x U_xx * IRK_alpha.transpose)
    ∧ N_0 lambda_1 (Real.exp lambda_2) U U_x U_xx i j
      = lambda_1 * U i j * U_x i j - Real.exp lambda_2 * U_xx i j
    ∧ U_0_model lambda_1 lambda_2 dt IRK_alpha U U_x U_xx i j
      = U i j + dt * ∑ k, (lambda_1 * U i k * U_x i k
          - Real.exp lambda_2 * U_xx i k) * IRK_alpha j k := by
  refine ⟨rfl, rfl, ?_⟩
  exact U_0_model_apply lambda_1 lambda_2 dt IRK_alpha U U_x U_xx i j

/-- Claim C2: for every batch and every value of the trainable parameters, the
slice-1 stage predictor computes the sign-flipped residual
`N = -lambda_1 * U * U_x + exp(lambda_2) * U_xx` and returns exactly
`U + dt * (N @ (beta - alpha)^T)`: entry `(i, j)` of the result is
`U i j + dt * sum_k N i k * (beta j k - alpha j k)`. -/
theorem C2_U_1_model_formula {n q : ℕ} (lambda_1 lambda_2 dt : ℝ)
    (IRK_alpha IRK_beta : Matrix (Fin q) (Fin q) ℝ)
    (U U_x U_xx : Matrix (Fin n) (Fin q) ℝ) (i : Fin n) (j : Fin q) :
    U_1_model lambda_1 lambda_2 dt IRK_alpha IRK_beta U U_x U_xx
      = U + dt • (N_1 lambda_1 (Real.exp lambda_2) U U_x U_xx
          * (IRK_beta - IRK_alpha).transpose)
    ∧ N_1 lambda_1 (Real.exp lambda_2) U U_x U_xx i j
      = -lambda_1 * U i j * U_x i j + Real.exp lambda_2 * U_xx i j
    ∧ U_1_model lambda_1 lambda_2 dt IRK_alpha IRK_beta U U_x U_xx i j
      = U i j + dt * ∑ k, (-lambda_1 * U i k * U_x i k
          + Real.exp lambda_2 * U_xx i k) * (IRK_beta j k - IRK_alpha j k) := by
  refine ⟨rfl, rfl, ?_⟩
  exact U_1_model_apply lambda_1 lambda_2 dt IRK_alpha IRK_beta U U_x U_xx i j

/-- Claim C7: with `lambda_1 = 0` and the diffusion coefficient taken to `0`,
the residuals vanish identically, and as `lambda_2 → -∞` (so
`exp lambda_2 → 0`) both stage predictions tend to the raw approximator
output `U` — the IRK correction collapses and the predictors become the
identity pass-through. -/
theorem C7_identity_passthrough {n q : ℕ} (dt : ℝ)
    (IRK_alpha IRK_beta : Matrix (Fin q) (Fin q) ℝ)
    (U U_x U_xx : Matrix (Fin n) (Fin q) ℝ) (i : Fin n) (j : Fin q) :
    N_0 0 0 U U_x U_xx = 0
    ∧ N_1 0 0 U U_x U_xx = 0
    ∧ Tendsto (fun lambda_2 => U_0_model 0 lambda_2 dt IRK_alpha U U_x U_xx i j)
        atBot (nhds (U i j))
    ∧ Tendsto (fun lambda_2 =>
        U_1_model 0 lambda_2 dt IRK_alpha IRK_beta U U_x U_xx i j)
        atBot (nhds (U i j)) := by
  refine ⟨?_, ?_, ?_, ?_⟩
  · ext i' j'; simp [N_0]
  · ext i' j'; simp [N_1]
  · have key0 : ∀ l2 : ℝ, U_0_model 0 l2 dt IRK_alpha U U_x U_xx i j
        = U i j + Real.exp l2 * (dt * ∑ k, -(U_xx i k * IRK_alpha j k)) := by
      intro l2
      rw [U_0_model_apply]
      have hs : ∑ k, (0 * U i k * U_x i k - Real.exp l2 * U_xx i k) * IRK_alpha j k
          = Real.exp l2 * ∑ k, -(U_xx i k * IRK_alpha j k) := by
        rw [Finset.mul_sum]
        exact Finset.sum_congr rfl fun k _ => by ring
      rw [hs]; ring
    have h0 : Tendsto (fun l2 : ℝ =>
        U i j + Real.exp l2 * (dt * ∑ k, -(U_xx i k * IRK_alpha j k)))
        atBot (nhds (U i j + 0 * (dt * ∑ k, -(U_xx i k * IRK_alpha j k)))) :=
      (Real.tendsto_exp_atBot.mul_const _).const_add _
    have hfun : (fun l2 : ℝ => U_0_model 0 l2 dt IRK_alpha U U_x U_xx i j)
        = fun l2 : ℝ =>
          U i j + Real.exp l2 * (dt * ∑ k, -(U_xx i k * IRK_alpha j k)) :=
      funext key0
    rw [hfun]
    simpa using h0
  · have key1 : ∀ l2 : ℝ, U_1_model 0 l2 dt IRK_alpha IRK_beta U U_x U_xx i j
        = U i j + Real.exp l2
            * (dt * ∑ k, U_xx i k * (IRK_beta j k - IRK_alpha j k)) := by
      intro l2
      rw [U_1_model_apply]
      have hs : ∑ k, (-0 * U i k * U_x i k + Real.exp l2 * U_xx i k)
            * (IRK_beta j k - IRK_alpha j k)
          = Real.exp l2 * ∑ k, U_xx i k * (IRK_beta j k - IRK_alpha j k) := by
        rw [Finset.mul_sum]
        exact Finset.sum_congr rfl fun k _ => by ring
      rw [hs]; ring
    have h1 : Tendsto (fun l2 : ℝ =>
        U i j + Real.exp l2
          * (dt * ∑ k, U_xx i k * (IRK_beta j k - IRK_alpha j k)))
        atBot (nhds (U i j + 0
          * (dt * ∑ k, U_xx i k * (IRK_beta j k - IRK_alpha j k)))) :=
      (Real.tendsto_exp_atBot.mul_const _).const_add _
    have hfun : (fun l2 : ℝ => U_1_model 0 l2 dt IRK_alpha IRK_beta U U_x U_xx i j)
        = fun l2 : ℝ =>
          U i j + Real.exp l2
            * (dt * ∑ k, U_xx i k * (IRK_beta j k - IRK_alpha j k)) :=
      funext key1
    rw [hfun]
    simpa using h1

/-- The op `tf.reduce_sum` on a matrix: sum of all entries. -/
def reduce_sum {n m : ℕ} (M : Matrix (Fin n) (Fin m) ℝ) : ℝ := ∑ i, ∑ j, M i j

/-- The op `tf.square`: elementwise square. -/
def tf_square {n m : ℕ} (M : Matrix (Fin n) (Fin m) ℝ) : Matrix (Fin n) (Fin m) ℝ :=
  Matrix.of fun i j => M i j ^ 2

/-- Method `__loss`: sum of squared differences of the slice-0 prediction against
`u_0` plus the same for slice 1 (`tf.reduce_sum(tf.square(pred - obs))`). -/
noncomputable def loss {n0 n1 q : ℕ} (lambda_1 lambda_2 dt : ℝ)
    (IRK_alpha IRK_beta : Matrix (Fin q) (Fin q) ℝ)
    (U0 U0_x U0_xx u_0 : Matrix (Fin n0) (Fin q) ℝ)
    (U1 U1_x U1_xx u_1 : Matrix (Fin n1) (Fin q) ℝ) : ℝ :=
  reduce_sum (tf_square (U_0_model lambda_1 lambda_2 dt IRK_alpha U0 U0_x U0_xx - u_0))
    + reduce_sum (tf_square
        (U_1_model lambda_1 lambda_2 dt IRK_alpha IRK_beta U1 U1_x U1_xx - u_1))

/-- The model object: domain bounds, time step, clamped stage count, the
approximator's trainable weights (flattened), and the two physical
parameters (created in `fit`, initialized there to `0` and `-6`). -/
structure PhysicsInformedNN where
  lb : ℝ
  ub : ℝ
  dt : ℝ
  q : ℤ
  U_model_weights : List ℝ
  lambda_1 : ℝ
  lambda_2 : ℝ

/-- Constructor `__init__`: stores `self.q = max(q, 1)`; `lambda_1`/`lambda_2` carry the
initial values that `fit` assigns before the training loop. -/
def mkPhysicsInformedNN (lb ub dt : ℝ) (q : ℤ) (weights : List ℝ) :
    PhysicsInformedNN :=
  { lb := lb, ub := ub, dt := dt, q := max q 1,
    U_model_weights := weights, lambda_1 := 0, lambda_2 := -6 }

/-- Method `__wrap_training_variables`: the approximator's trainable variables
extended by `lambda_1` then `lambda_2`. -/
def wrap_training_variables (p : PhysicsInformedNN) : List ℝ :=
  p.U_model_weights ++ [p.lambda_1, p.lambda_2]

/-- Modelled from the spec: `tf.GradientTape.gradient` — the reverse-mode
autodiff substrate invoked by `__grad` — is TensorFlow code, not part of this
repository's source.  Per the spec it returns the gradient of the scalar loss
with respect to each trainable variable, modelled here as the list of partial
derivatives of `L` at `vars`, one per variable, in variable order. -/
noncomputable def tape_gradient (L : List ℝ → ℝ) (vars : List ℝ) : List ℝ :=
  (List.range vars.length).map fun i =>
    deriv (fun t => L (vars.set i t)) (vars.getD i 0)

/-- Method `__grad`: the loss value at the current variables together with the tape
gradient with respect to `__wrap_training_variables()`. -/
noncomputable def grad (L : List ℝ → ℝ) (p : PhysicsInformedNN) : ℝ × List ℝ :=
  (L (wrap_training_variables p), tape_gradient L (wrap_training_variables p))

/-- Claim C3: the loss is the sum of squared elementwise slice-0 differences
plus the sum of squared elementwise slice-1 differences, and the gradient
operation returns this loss value together with the gradient with respect to
the concatenation of all approximator weights followed by `lambda_1` and
`lambda_2`. -/
theorem C3_loss_and_grad {n0 n1 q : ℕ} (lambda_1 lambda_2 dt : ℝ)
    (IRK_alpha IRK_beta : Matrix (Fin q) (Fin q) ℝ)
    (U0 U0_x U0_xx u_0 : Matrix (Fin n0) (Fin q) ℝ)
    (U1 U1_x U1_xx u_1 : Matrix (Fin n1) (Fin q) ℝ)
    (L : List ℝ → ℝ) (p : PhysicsInformedNN) :
    loss lambda_1 lambda_2 dt IRK_alpha IRK_beta U0 U0_x U0_xx u_0 U1 U1_x U1_xx u_1
      = (∑ i, ∑ j, (U_0_model lambda_1 lambda_2 dt IRK_alpha U0 U0_x U0_xx i j
          - u_0 i j) ^ 2)
        + (∑ i, ∑ j, (U_1_model lambda_1 lambda_2 dt IRK_alpha IRK_beta U1 U1_x U1_xx i j
          - u_1 i j) ^ 2)
    ∧ wrap_training_variables p = p.U_model_weights ++ [p.lambda_1, p.lambda_2]
    ∧ grad L p = (L (p.U_model_weights ++ [p.lambda_1, p.lambda_2]),
        tape_gradient L (p.U_model_weights ++ [p.lambda_1, p.lambda_2])) := by
  refine ⟨?_, rfl, rfl⟩
  simp [loss, reduce_sum, tf_square, Matrix.sub_apply]

/-- Update step `optimizer.apply_gradients(zip(grads, self.__wrap_training_variables()))`:
each wrapped variable is replaced by `upd var grad` for its paired gradient
(`upd` abstracts the optimizer's per-variable update rule; Python's `zip`
truncates to the shorter list, as `List.zipWith` does).  The updated list is
written back into the weights and the two lambdas. -/
def apply_gradients (upd : ℝ → ℝ → ℝ) (grads : List ℝ) (p : PhysicsInformedNN) :
    PhysicsInformedNN :=
  let vs := List.zipWith upd (wrap_training_variables p) grads
  { p with U_model_weights := vs.take p.U_model_weights.length,
           lambda_1 := vs.getD p.U_model_weights.length p.lambda_1,
           lambda_2 := vs.getD (p.U_model_weights.length + 1) p.lambda_2 }

/-- The `for epoch in range(epochs)` loop of `fit`: each iteration computes the
gradients once on the full data and applies one optimizer update. -/
def fitLoop {δ : Type} (upd : ℝ → ℝ → ℝ)
    (gradFn : δ → PhysicsInformedNN → List ℝ) (data : δ) :
    ℕ → PhysicsInformedNN → PhysicsInformedNN
  | 0, p => p
  | e + 1, p => fitLoop upd gradFn data e (apply_gradients upd (gradFn data p) p)

/-- Method `fit`: (re)creates `lambda_1 = 0`, `lambda_2 = -6`, then runs the training
loop for exactly `epochs` iterations over the fixed full dataset `data`
(`gradFn` abstracts `__grad` evaluated on the full observation tensors). -/
def fit {δ : Type} (upd : ℝ → ℝ → ℝ)
    (gradFn : δ → PhysicsInformedNN → List ℝ) (data : δ)
    (p : PhysicsInformedNN) (epochs : ℕ) : PhysicsInformedNN :=
  fitLoop upd gradFn data epochs { p with lambda_1 := 0, lambda_2 := -6 }

/-- Shape of `self.dummy_x_0 = tf.ones([x_0.shape[0], self.q])` created in `fit`. -/
def dummy_x_0_shape (p : PhysicsInformedNN) (n0 : ℕ) : ℕ × ℤ := (n0, p.q)

/-- Shape of `self.dummy_x_1 = tf.ones([x_1.shape[0], self.q])` created in `fit`. -/
def dummy_x_1_shape (p : PhysicsInformedNN) (n1 : ℕ) : ℕ × ℤ := (n1, p.q)

theorem fitLoop_eq_iterate {δ : Type} (upd : ℝ → ℝ → ℝ)
    (gradFn : δ → PhysicsInformedNN → List ℝ) (data : δ) :
    ∀ (E : ℕ) (p : PhysicsInformedNN),
      fitLoop upd gradFn data E p
        = (fun s => apply_gradients upd (gradFn data s) s)^[E] p := by
  intro E
  induction E with
  | zero => intro p; rfl
  | succ e ih =>
    intro p
    rw [fitLoop, ih, Function.iterate_succ_apply]

/-- Claim C4: `fit` with epoch count `E` executes exactly `E` epochs — the
final state is the `E`-fold iterate of a single epoch step, each step being
one gradient computation `gradFn data s` on the fixed full dataset followed by
one `apply_gradients` — with no early stopping; and when the gradient list
matches the wrapped variables, that one optimizer update jointly rewrites the
network weights and both lambda variables. -/
theorem C4_fit_fixed_epochs {δ : Type} (upd : ℝ → ℝ → ℝ)
    (gradFn : δ → PhysicsInformedNN → List ℝ) (data : δ) (E : ℕ)
    (p p' : PhysicsInformedNN) (gw : List ℝ) (g1 g2 : ℝ) :
    fit upd gradFn data p E
      = (fun s => apply_gradients upd (gradFn data s) s)^[E]
          { p with lambda_1 := 0, lambda_2 := -6 }
    ∧ (gw.length = p'.U_model_weights.length →
        apply_gradients upd (gw ++ [g1, g2]) p'
          = { p' with U_model_weights := List.zipWith upd p'.U_model_weights gw,
                      lambda_1 := upd p'.lambda_1 g1,
                      lambda_2 := upd p'.lambda_2 g2 }) := by
  constructor
  · rw [fit, fitLoop_eq_iterate]
  · intro h
    have hz : List.zipWith upd (wrap_training_variables p') (gw ++ [g1, g2])
        = List.zipWith upd p'.U_model_weights gw
          ++ [upd p'.lambda_1 g1, upd p'.lambda_2 g2] := by
      rw [wrap_training_variables, List.zipWith_append _ _ _ _ _ h.symm]
      rfl
    have hlen : (List.zipWith upd p'.U_model_weights gw).length
        = p'.U_model_weights.length := by
      rw [List.length_zipWith, h, min_self]
    rw [apply_gradients]
    simp only [hz]
    congr 1
    · rw [← hlen, List.take_left]
    · rw [List.getD_append_right _ _ _ _ hlen.le]
      simp [hlen]
    · rw [List.getD_append_right _ _ _ _ (by rw [hlen]; exact Nat.le_succ _)]
      simp [hlen, Nat.add_sub_cancel_left]

/-- Concrete instantiation of `C4_fit_fixed_epochs` with its hypothesis
discharged: one weight, gradient list `[5] ++ [2, 3]`. -/
theorem C4_fit_fixed_epochs_witness :
    fit (fun v g => v - g) (fun (_ : Unit) _ => [(1 : ℝ), 2, 3]) ()
        ⟨0, 0, 0, 1, [0], 0, 0⟩ 2
      = (fun s => apply_gradients (fun v g => v - g)
          ((fun (_ : Unit) _ => [(1 : ℝ), 2, 3]) () s) s)^[2]
          { (⟨0, 0, 0, 1, [0], 0, 0⟩ : PhysicsInformedNN) with
              lambda_1 := 0, lambda_2 := -6 }
    ∧ apply_gradients (fun v g => v - g) ([(5 : ℝ)] ++ [2, 3])
          ⟨0, 0, 0, 1, [0], 0, 0⟩
      = { (⟨0, 0, 0, 1, [0], 0, 0⟩ : PhysicsInformedNN) with
            U_model_weights := List.zipWith (fun v g => v - g) [0] [5],
            lambda_1 := (fun v g : ℝ => v - g) 0 2,
            lambda_2 := (fun v g : ℝ => v - g) 0 3 } :=
  ⟨(C4_fit_fixed_epochs (fun v g => v - g) (fun (_ : Unit) _ => [(1 : ℝ), 2, 3]) ()
      2 ⟨0, 0, 0, 1, [0], 0, 0⟩ ⟨0, 0, 0, 1, [0], 0, 0⟩ [5] 2 3).1,
   (C4_fit_fixed_epochs (fun v g => v - g) (fun (_ : Unit) _ => [(1 : ℝ), 2, 3]) ()
      2 ⟨0, 0, 0, 1, [0], 0, 0⟩ ⟨0, 0, 0, 1, [0], 0, 0⟩ [5] 2 3).2 rfl⟩

theorem fitLoop_q {δ : Type} (upd : ℝ → ℝ → ℝ)
    (gradFn : δ → PhysicsInformedNN → List ℝ) (data : δ) :
    ∀ (E : ℕ) (p : PhysicsInformedNN), (fitLoop upd gradFn data E p).q = p.q := by
  intro E
  induction E with
  | zero => intro p; rfl
  | succ e ih => intro p; rw [fitLoop, ih]; rfl

/-- Claim C10: the constructor stores `self.q = max(q, 1)`, so the stored
stage count is at least `1` for every argument `q` (including zero or negative
values); the dummy seed shapes created in `fit` use exactly this clamped
value as their column width; and neither an optimizer update nor a whole
`fit` run changes the stored `q`. -/
theorem C10_q_clamp_invariant (lb ub dt : ℝ) (q : ℤ) (w : List ℝ)
    (n0 n1 : ℕ) {δ : Type} (upd : ℝ → ℝ → ℝ)
    (gradFn : δ → PhysicsInformedNN → List ℝ) (data : δ) (E : ℕ)
    (p : PhysicsInformedNN) (g : List ℝ) :
    (mkPhysicsInformedNN lb ub dt q w).q = max q 1
    ∧ 1 ≤ (mkPhysicsInformedNN lb ub dt q w).q
    ∧ dummy_x_0_shape (mkPhysicsInformedNN lb ub dt q w) n0 = (n0, max q 1)
    ∧ dummy_x_1_shape (mkPhysicsInformedNN lb ub dt q w) n1 = (n1, max q 1)
    ∧ (apply_gradients upd g p).q = p.q
    ∧ (fit upd gradFn data p E).q = p.q := by
  refine ⟨rfl, le_max_right q 1, rfl, rfl, rfl, ?_⟩
  rw [fit, fitLoop_q]

/-- Dot product of a neuron's weight row with the layer input
(dynamic-length lists, as Keras tensors are untyped in shape). -/
def dot (w v : List ℝ) : ℝ := (List.zipWith (fun a b => a * b) w v).sum

/-- One Keras `Dense` layer: a list of neurons, each a weight row and a bias;
output is `act (w · v + b)` per neuron. -/
def denseForward (layer : List (List ℝ × ℝ)) (act : ℝ → ℝ) (v : List ℝ) :
    List ℝ :=
  layer.map fun wb => act (dot wb.1 v + wb.2)

/-- The affine (pre-activation) result of a `Dense` layer. -/
def affineForward (layer : List (List ℝ × ℝ)) (v : List ℝ) : List ℝ :=
  layer.map fun wb => dot wb.1 v + wb.2

/-- The network `self.U_model` as `__init__` builds it: a `Sequential` where EVERY width of
`layers[1:]` becomes `Dense(width, activation=tf.nn.tanh, ...)` — the loop
attaches the `tanh` activation to the final layer too. -/
noncomputable def U_model_forward (params : List (List (List ℝ × ℝ)))
    (x : List ℝ) : List ℝ :=
  params.foldl (fun v layer => denseForward layer Real.tanh v) x

/-- The script's layer-width list: `layers = [1, 50, 50, 50, 0]` followed by
`layers[-1] = q`. -/
def scriptLayers (q : ℕ) : List ℕ :=
  [1, 50, 50, 50, 0].set ([1, 50, 50, 50, 0].length - 1) q

theorem tanh_one_lt_one : Real.tanh 1 < 1 := by
  rw [Real.tanh_eq_sinh_div_cosh]
  have h1 : Real.cosh 1 - Real.sinh 1 = Real.exp (-1) := Real.cosh_sub_sinh 1
  have h2 : (0 : ℝ) < Real.exp (-1) := Real.exp_pos _
  have h3 : Real.sinh 1 < Real.cosh 1 := by linarith
  exact (div_lt_one (Real.cosh_pos 1)).2 h3

/-- Counterexample to claim C5: the single-layer network with one neuron of
weight `[1]` and bias `0` on input `[1]` outputs `[tanh 1]`, not the raw
affine result `[1]` — the constructor attaches `tanh` to the final layer as
well, so the output is not the raw affine (linear) result. -/
theorem C5_counterexample :
    U_model_forward [[([1], 0)]] [1] ≠ affineForward [([1], 0)] [1] := by
  intro h
  have h1 : Real.tanh (dot [1] [1] + 0) = dot [1] [1] + 0 := by
    have := congrArg (fun l => l.getD 0 0) h
    simpa [U_model_forward, denseForward, affineForward] using this
  have hd : dot [(1 : ℝ)] [1] = 1 := by simp [dot]
  rw [hd] at h1
  have h2 : Real.tanh 1 < 1 := tanh_one_lt_one
  rw [show (1 : ℝ) + 0 = 1 by ring] at h1
  linarith

/-- Claim C5 amended: the hyperbolic tangent is applied in EVERY layer built
from `layers[1:]`, including the output layer — for every parameter list the
final layer's output is `tanh` applied elementwise to its affine result, not
the raw affine result. -/
theorem C5_tanh_on_every_layer (ps : List (List (List ℝ × ℝ)))
    (l : List (List ℝ × ℝ)) (x v : List ℝ) :
    U_model_forward (ps ++ [l]) x = denseForward l Real.tanh (U_model_forward ps x)
    ∧ denseForward l Real.tanh v = (affineForward l v).map Real.tanh := by
  constructor
  · rw [U_model_forward, U_model_forward, List.foldl_append]
    rfl
  · rw [denseForward, affineForward, List.map_map]
    rfl

theorem U_model_forward_length (ps : List (List (List ℝ × ℝ))) :
    ∀ x : List ℝ, (U_model_forward ps x).length
      = (ps.map List.length).getLastD x.length := by
  induction ps with
  | nil => intro x; rfl
  | cons l ps ih =>
    intro x
    have h1 : U_model_forward (l :: ps) x
        = U_model_forward ps (denseForward l Real.tanh x) := rfl
    rw [h1, ih, List.map_cons, List.getLastD_cons, denseForward, List.length_map]

/-- A layer of `w` neurons with empty weight rows and zero bias (only widths
matter for shape facts). -/
def zeroLayer (w : ℕ) : List (List ℝ × ℝ) := List.replicate w ([], 0)

/-- Counterexample to claim C6: with stage count `q = 2` the script's topology
is `[1, 50, 50, 50, 2]` (`layers[-1] = q`), and a network with exactly those
layer widths returns a batch row of width `2 = q`, not `q + 1 = 3`. -/
theorem C6_counterexample :
    scriptLayers 2 = [1, 50, 50, 50, 2]
    ∧ List.map List.length [zeroLayer 50, zeroLayer 50, zeroLayer 50, zeroLayer 2]
        = (scriptLayers 2).tail
    ∧ (U_model_forward [zeroLayer 50, zeroLayer 50, zeroLayer 50, zeroLayer 2]
        [0]).length = 2
    ∧ (2 : ℕ) ≠ 2 + 1 := by
  refine ⟨by decide, ?_, ?_, by decide⟩
  · simp [zeroLayer, scriptLayers]
  · rw [U_model_forward_length]
    simp [zeroLayer]

/-- Claim C6 amended: the script wires the approximator's output width to `q`
(not `q + 1`): `layers[-1] = q` makes the topology `[1, 50, 50, 50, q]`, and
for every network the forward output width is the last layer's width, so a
batch of `N` points yields an `N × q` result. -/
theorem C6_output_width_q (q : ℕ) (ps : List (List (List ℝ × ℝ))) (x : List ℝ) :
    scriptLayers q = [1, 50, 50, 50, q]
    ∧ (scriptLayers q).getLastD 0 = q
    ∧ (U_model_forward ps x).length = (ps.map List.length).getLastD x.length := by
  refine ⟨?_, ?_, U_model_forward_length ps x⟩
  · rfl
  · rfl

/-- First metric computed by `error`: `np.abs(x_star - 1.0)/1.0 * 100`. -/
noncomputable def error_lambda_1 (x_star : ℝ) : ℝ := |x_star - 1.0| / 1.0 * 100

/-- Ground-truth viscosity `nu = 0.01 / np.pi` used by `error`. -/
noncomputable def nu : ℝ := 0.01 / Real.pi

/-- Second metric computed by `error`: `np.abs(u_star - nu)/nu * 100`. -/
noncomputable def error_lambda_2 (u_star : ℝ) : ℝ := |u_star - nu| / nu * 100

/-- Method `error(x_star, u_star)` exactly as the code returns it: it computes both
`error_lambda_1` and `error_lambda_2` but its `return` statement returns only
`error_lambda_1`. -/
noncomputable def error (x_star _u_star : ℝ) : ℝ := error_lambda_1 x_star

/-- Claim C8 (code bug): `error` ignores its second argument entirely — its
value never depends on the recovered diffusion coefficient — and at the
recovered values `x_star = 1`, `u_star = 0` it returns only `0` (the
`lambda_1` percent error), while the `lambda_2` percent error it computed and
discarded is `100`.  The claim (and the spec) say both percentage relative
errors are returned. -/
theorem C8_error_drops_lambda_2 :
    (∀ x u u' : ℝ, error x u = error x u')
    ∧ error 1 0 = 0
    ∧ error_lambda_2 0 = 100 := by
  refine ⟨fun x u u' => rfl, ?_, ?_⟩
  · norm_num [error, error_lambda_1]
  · have hnu : (0 : ℝ) < nu := by
      rw [nu]
      positivity
    rw [error_lambda_2, zero_sub, abs_neg, abs_of_pos hnu, div_self (ne_of_gt hnu)]
    norm_num

end IdeDiscBurgers
